import Mathlib

/-!
Verification of the `spark` browser-flow utility.

The repository contains two Python scripts:

* `src/scripts/web_screenshot_flow.py` — a flow runner: it loads a JSON
  "FlowSpec", launches a browser, executes a list of steps (waitFor, click,
  clickText, sleep, screenshot, goto) against a single page and exits with a
  status code.
* `src/web/write_dotenv.py` — an env-writer: copies the `DOTENV` environment
  variable verbatim into `web/.env.local`.

We embed both shallowly.  JSON documents become the inductive `JValue`
(Python booleans are a subtype of `int`, which the embedding reflects in
`isInt`/`toInt`).  The browser-automation engine is abstracted by a `World`
oracle that answers, for each operation, whether it succeeds, times out, or
raises some other error, and how many elements each locator category matches.
Running the program yields a `RunOutcome`: the process exit code, the lines
printed to standard error, and a trace of browser/filesystem events in the
order the script performs them.
-/

namespace Spark

/-- JSON values as decoded by Python's `json.loads`: `null` ↦ `None`,
numbers restricted to integers (the spec only uses integral fields). -/
inductive JValue where
  | null : JValue
  | bool : Bool → JValue
  | num : Int → JValue
  | str : String → JValue
  | arr : List JValue → JValue
  | obj : List (String × JValue) → JValue

/-- `d.get(key)`: `none` when the key is absent, `some v` when present
(`some .null` when present with a JSON `null` value, which Python's
`dict.get` does NOT replace by the default). -/
def jget : List (String × JValue) → String → Option JValue
  | [], _ => none
  | (k, v) :: rest, key => if k = key then some v else jget rest key

/-- Python `isinstance(v, int)`: true for ints AND booleans
(`bool` is a subclass of `int`). -/
def isInt : JValue → Bool
  | .num _ => true
  | .bool _ => true
  | _ => false

/-- The integer value Python sees: `True = 1`, `False = 0`. -/
def toInt : JValue → Int
  | .num n => n
  | .bool b => if b then 1 else 0
  | _ => 0

/-- Python truthiness `bool(v)` of a JSON-decoded value. -/
def truthy : JValue → Bool
  | .null => false
  | .bool b => b
  | .num n => decide (n ≠ 0)
  | .str s => decide (s ≠ "")
  | .arr xs => !xs.isEmpty
  | .obj kvs => !kvs.isEmpty

/-- The three locator categories tried by `click_by_text`, in priority
order: `page.get_by_role("button", name=text)`, then
`page.get_by_role("link", name=text)`, then `page.get_by_text(text)`. -/
inductive LocCat where
  | button : LocCat
  | link : LocCat
  | textEl : LocCat

/-- Observable browser / filesystem events, in the order the script
performs them. -/
inductive Event where
  | launch : Bool → Option JValue → Event
  | newContext : Int → Int → Event
  | newPage : Event
  | goto : String → String → Int → Event
  | waitForSelector : String → Int → Event
  | clickSel : String → Int → Bool → Event
  | clickLocator : LocCat → String → Int → Bool → Event
  | waitTimeout : Int → Event
  | mkdirs : String → Event
  | screenshot : String → Bool → Event
  | printSaved : String → Event
  | closeContext : Event
  | closeBrowser : Event

/-- The exceptions the script can raise or observe: `SpecError`,
`PlaywrightTimeoutError`, or any other Python exception. -/
inductive Err where
  | specError : String → Err
  | pwTimeout : String → Err
  | otherExc : String → Err

/-- The outcome the browser-automation engine gives one operation. -/
inductive PwOutcome where
  | ok : PwOutcome
  | timeout : String → PwOutcome
  | fail : String → PwOutcome

/-- The error (if any) an operation outcome surfaces to the script. -/
def outcomeErr : PwOutcome → Option Err
  | .ok => none
  | .timeout m => some (.pwTimeout m)
  | .fail m => some (.otherExc m)

/-- The browser-automation oracle: per-operation outcomes and, for
`clickText`, how many elements each locator category matches. -/
structure World where
  gotoOutcome : String → PwOutcome
  waitForOutcome : String → PwOutcome
  clickOutcome : String → PwOutcome
  buttonCount : String → Nat
  linkCount : String → Nat
  textCount : String → Nat
  clickElOutcome : LocCat → String → PwOutcome
  screenshotOutcome : String → PwOutcome

/-- The full environment of one run: the spec file's parse result (`none`
when the file does not exist, `some (.error m)` when `json.loads` raises with
message `m`) together with the browser oracle. -/
structure RunEnv where
  specFile : Option (Except String JValue)
  world : World

/-- Parsed command-line arguments (`--spec` is modelled already resolved). -/
structure Args where
  spec : String
  outDir : Option String
  headed : Bool
  slowmo : Option Int

/-- The observable result of one run of the flow runner. -/
structure RunOutcome where
  exitCode : Int
  stderr : List String
  trace : List Event

/-- Per-step configuration derived from the FlowSpec before the browser
starts. -/
structure Config where
  width : Int
  height : Int
  timeoutMs : Int
  fullPage : Bool
  headless : Bool
  waitUntil : String
  slowMo : Option JValue
  baseDir : String

/-- `Path(p).is_absolute()` (POSIX): the path begins with `/`. -/
def isAbsolute (p : String) : Bool :=
  match p.data with
  | [] => false
  | c :: _ => c = '/'

/-- Split a character list at every `/`. -/
def splitSlash : List Char → List (List Char)
  | [] => [[]]
  | c :: rest =>
    match splitSlash rest with
    | acc :: more => if c = '/' then [] :: acc :: more else (c :: acc) :: more
    | [] => [[c]]

/-- Rejoin path components with `/`. -/
def joinSlash : List (List Char) → List Char
  | [] => []
  | [x] => x
  | x :: xs => x ++ '/' :: joinSlash xs

/-- `Path(p).parent` (POSIX, as a plain string model): drop the last `/`
component. -/
def dirname (p : String) : String :=
  ⟨joinSlash ((splitSlash p.data).dropLast)⟩

/-- `resolve_path` from the source: a relative path is joined onto
`base_dir`, an absolute path is returned unchanged. -/
def resolve_path (path : String) (baseDir : String) : String :=
  if isAbsolute path then path else baseDir ++ "/" ++ path

/-- `base_dir = Path(args.out_dir)... if args.out_dir else spec_path.parent`:
note Python tests the STRING's truthiness, so an empty `--out-dir` falls back
to the spec file's directory. -/
def outputBaseDir (args : Args) : String :=
  match args.outDir with
  | some d => if d = "" then dirname args.spec else d
  | none => dirname args.spec

/-- `maybe_wait(page, ms)`: skips `None` (also JSON `null`) and
non-positive values; a Python `bool` compares as its integer value; any
other type makes `ms <= 0` raise `TypeError`. -/
def maybe_wait (mv : Option JValue) : List Event × Option Err :=
  match mv with
  | none => ([], none)
  | some .null => ([], none)
  | some (.num m) => (if m ≤ 0 then [] else [.waitTimeout m], none)
  | some (.bool b) => (if b then [.waitTimeout 1] else [], none)
  | some _ => ([], some (.otherExc "TypeError: unsupported comparison"))

/-- Emit an operation's event, then propagate its outcome; on success run
the step's optional `afterMs` pause. -/
def opThen (ev : Event) (oc : PwOutcome) (afterV : Option JValue) :
    List Event × Option Err :=
  match oc with
  | .ok =>
      match maybe_wait afterV with
      | (e, r) => (ev :: e, r)
  | .timeout m => ([ev], some (.pwTimeout m))
  | .fail m => ([ev], some (.otherExc m))

/-- `click_by_text(page, text, timeout_ms)`: try button by accessible name,
then link by accessible name, then any element containing the text; click the
first match of the first non-empty category; raise `PlaywrightTimeoutError`
when every category is empty.  Clicks here use the default
`no_wait_after=False`. -/
def click_by_text (w : World) (text : String) (timeoutMs : Int) :
    List Event × Option Err :=
  if w.buttonCount text > 0 then
    ([.clickLocator .button text timeoutMs false],
      outcomeErr (w.clickElOutcome .button text))
  else if w.linkCount text > 0 then
    ([.clickLocator .link text timeoutMs false],
      outcomeErr (w.clickElOutcome .link text))
  else if w.textCount text > 0 then
    ([.clickLocator .textEl text timeoutMs false],
      outcomeErr (w.clickElOutcome .textEl text))
  else
    ([], some (.pwTimeout ("No element found matching text: " ++ text)))

/-- The inlined `noWaitAfter` variant of the clickText dispatch (source lines
191-206): same three categories in the same order, clicking with
`no_wait_after=True`. -/
def clickTextNoWait (w : World) (text : String) (timeoutMs : Int) :
    List Event × Option Err :=
  if w.buttonCount text > 0 then
    ([.clickLocator .button text timeoutMs true],
      outcomeErr (w.clickElOutcome .button text))
  else if w.linkCount text > 0 then
    ([.clickLocator .link text timeoutMs true],
      outcomeErr (w.clickElOutcome .link text))
  else if w.textCount text > 0 then
    ([.clickLocator .textEl text timeoutMs true],
      outcomeErr (w.clickElOutcome .textEl text))
  else
    ([], some (.pwTimeout ("No element found matching text: " ++ text)))

/-- One step's dispatch (source lines 166-231), after reading the step
object's recognized keys.  Each branch validates its own argument lazily and
raises `SpecError` on a type mismatch; unknown actions raise
`SpecError("unknown action: ...")`. -/
def execStepObj (w : World) (cfg : Config) (actionV selectorV noWaitV afterV
    textV msV pathV urlV : Option JValue) : List Event × Option Err :=
  match actionV with
  | some (.str action) =>
    if action = "waitFor" then
      match selectorV with
      | some (.str sel) =>
          opThen (.waitForSelector sel cfg.timeoutMs)
            (w.waitForOutcome sel) afterV
      | _ => ([], some (.specError "waitFor requires selector"))
    else if action = "click" then
      match selectorV with
      | some (.str sel) =>
          opThen (.clickSel sel cfg.timeoutMs (truthy (noWaitV.getD (.bool false))))
            (w.clickOutcome sel) afterV
      | _ => ([], some (.specError "click requires selector"))
    else if action = "clickText" then
      match textV with
      | some (.str text) =>
          match (if truthy (noWaitV.getD (.bool false)) then
                   clickTextNoWait w text cfg.timeoutMs
                 else
                   click_by_text w text cfg.timeoutMs) with
          | (evs, some e) => (evs, some e)
          | (evs, none) =>
              match maybe_wait afterV with
              | (e2, r) => (evs ++ e2, r)
      | _ => ([], some (.specError "clickText requires text"))
    else if action = "sleep" then
      match msV with
      | some (.num m) => ([.waitTimeout m], none)
      | some (.bool b) => ([.waitTimeout (if b then 1 else 0)], none)
      | _ => ([], some (.specError "sleep requires ms"))
    else if action = "screenshot" then
      match pathV with
      | some (.str path) =>
          match maybe_wait afterV with
          | (e1, some r) => (e1, some r)
          | (e1, none) =>
              let out := resolve_path path cfg.baseDir
              match w.screenshotOutcome out with
              | .ok => (e1 ++ [.mkdirs (dirname out),
                        .screenshot out cfg.fullPage, .printSaved out], none)
              | .timeout m =>
                  (e1 ++ [.mkdirs (dirname out)], some (.pwTimeout m))
              | .fail m =>
                  (e1 ++ [.mkdirs (dirname out)], some (.otherExc m))
      | _ => ([], some (.specError "screenshot requires path"))
    else if action = "goto" then
      match urlV with
      | some (.str u) =>
          opThen (.goto u cfg.waitUntil cfg.timeoutMs) (w.gotoOutcome u) afterV
      | _ => ([], some (.specError "goto requires url"))
    else
      ([], some (.specError ("unknown action: " ++ action)))
  | _ => ([], some (.specError "step.action must be a string"))

/-- One raw step: must be an object, then dispatch on its recognized keys
(`raw_step.get(...)` reads on a decoded immutable dict are pure, so hoisting
them is behaviour-preserving). -/
def execStep (w : World) (cfg : Config) (s : JValue) : List Event × Option Err :=
  match s with
  | .obj kvs =>
      execStepObj w cfg (jget kvs "action") (jget kvs "selector")
        (jget kvs "noWaitAfter") (jget kvs "afterMs") (jget kvs "text")
        (jget kvs "ms") (jget kvs "path") (jget kvs "url")
  | _ => ([], some (.specError "each step must be an object"))

/-- The `for raw_step in steps` loop: strictly sequential, stops at the first
error, keeps the trace of everything already performed. -/
def execSteps (w : World) (cfg : Config) : List JValue → List Event × Option Err
  | [] => ([], none)
  | s :: rest =>
    match execStep w cfg s with
    | (evs, some e) => (evs, some e)
    | (evs, none) =>
      match execSteps w cfg rest with
      | (evs2, r) => (evs ++ evs2, r)

/-- `require_key(spec, key, str)`: `spec.get(key)` must be a string. -/
def require_str (v : Option JValue) (key : String) : Except String String :=
  match v with
  | some (.str s) => .ok s
  | _ => .error ("spec." ++ key ++ " must be str")

/-- `require_key(spec, key, list)`: `spec.get(key)` must be a list. -/
def require_list (v : Option JValue) (key : String) : Except String (List JValue) :=
  match v with
  | some (.arr l) => .ok l
  | _ => .error ("spec." ++ key ++ " must be list")

/-- `wait_until in ("load", "domcontentloaded", "networkidle", "commit")`:
only those exact strings pass; any other decoded value fails. -/
def waitUntilCheck : JValue → Option String
  | .str s =>
      if s = "load" ∨ s = "domcontentloaded" ∨ s = "networkidle" ∨ s = "commit"
      then some s else none
  | _ => none

/-- The browser session (source lines 160-245): launch, context, page,
initial `goto`, then the step loop; on normal completion close the context
then the browser and exit 0; exceptions map `SpecError` and
`PlaywrightTimeoutError` to exit 2 and anything else to exit 1, each printed
to stderr with an `error:` prefix. -/
def runBrowser (w : World) (cfg : Config) (url : String)
    (steps : List JValue) : RunOutcome :=
  let pre : List Event :=
    [Event.launch cfg.headless cfg.slowMo,
     Event.newContext cfg.width cfg.height, Event.newPage,
     Event.goto url cfg.waitUntil cfg.timeoutMs]
  match w.gotoOutcome url with
    | .timeout m => ⟨2, ["error: " ++ m], pre⟩
    | .fail m => ⟨1, ["error: " ++ m], pre⟩
    | .ok =>
      match execSteps w cfg steps with
      | (evs, some (.specError m)) => ⟨2, ["error: " ++ m], pre ++ evs⟩
      | (evs, some (.pwTimeout m)) => ⟨2, ["error: " ++ m], pre ++ evs⟩
      | (evs, some (.otherExc m)) => ⟨1, ["error: " ++ m], pre ++ evs⟩
      | (evs, none) =>
          ⟨0, [], pre ++ evs ++ [Event.closeContext, Event.closeBrowser]⟩

/-- Optional-field handling (source lines 129-157) given the values of the
recognized top-level keys, then the browser session.  `viewport`,
`timeoutMs` and `waitUntil` are type-checked (printing directly to stderr and
returning 2); `fullPage` and `headless` are coerced with `bool(...)`;
`slowMoMs` is passed through unvalidated. -/
def runSpecFields (w : World) (args : Args) (urlV stepsV viewportV fullPageV
    timeoutV headlessV waitUntilV slowMoV : Option JValue) : RunOutcome :=
  match require_str urlV "url" with
  | .error m => ⟨2, ["error: " ++ m], []⟩
  | .ok url =>
    match require_list stepsV "steps" with
    | .error m => ⟨2, ["error: " ++ m], []⟩
    | .ok steps =>
      match viewportV.getD (.obj [("width", .num 1440), ("height", .num 900)]) with
      | .obj vkvs =>
        match (jget vkvs "width").getD (.num 1440),
              (jget vkvs "height").getD (.num 900) with
        | wv, hv =>
          if isInt wv && isInt hv then
            match timeoutV.getD (.num 30000) with
            | tv =>
              if isInt tv then
                match waitUntilCheck (waitUntilV.getD (.str "networkidle")) with
                | some wus =>
                    runBrowser w
                      { width := toInt wv, height := toInt hv,
                        timeoutMs := toInt tv,
                        fullPage := truthy (fullPageV.getD (.bool false)),
                        headless := if args.headed then false
                                    else truthy (headlessV.getD (.bool true)),
                        waitUntil := wus,
                        slowMo := match args.slowmo with
                                  | some i => some (.num i)
                                  | none => match slowMoV with
                                            | some .null => none
                                            | x => x,
                        baseDir := outputBaseDir args }
                      url steps
                | none =>
                    ⟨2, ["error: spec.waitUntil must be load|domcontentloaded|networkidle|commit"], []⟩
              else ⟨2, ["error: spec.timeoutMs must be an integer"], []⟩
            else ⟨2, ["error: spec.viewport width/height must be integers"], []⟩
      | _ => ⟨2, ["error: spec.viewport must be an object"], []⟩

/-- The whole `run()`: spec-file existence check (note: its message has NO
`error:` prefix), `load_spec` (JSON parse + top-level shape), then the
field validation and the browser session. -/
def run (env : RunEnv) (args : Args) : RunOutcome :=
  match env.specFile with
  | none => ⟨2, ["spec not found: " ++ args.spec], []⟩
  | some (.error m) => ⟨2, ["error: invalid JSON spec: " ++ m], []⟩
  | some (.ok v) =>
    match v with
    | .obj kvs =>
        runSpecFields env.world args (jget kvs "url") (jget kvs "steps")
          (jget kvs "viewport") (jget kvs "fullPage") (jget kvs "timeoutMs")
          (jget kvs "headless") (jget kvs "waitUntil") (jget kvs "slowMoMs")
    | _ => ⟨2, ["error: spec must be a JSON object"], []⟩

/-- Observable result of the env-writer script `src/web/write_dotenv.py`. -/
structure DotenvResult where
  exitCode : Int
  stderr : List String
  stdout : List String
  madeDirs : List String
  writes : List (String × String)

/-- `write_dotenv.py`: read `DOTENV` (`none` = unset); if unset print an
error to stderr and exit 1; otherwise announce, create
`os.path.dirname("web/.env.local") = "web"` with `exist_ok=True`, write the
raw contents verbatim, print `Done.` and exit 0. -/
def write_dotenv (dotenv : Option String) : DotenvResult :=
  match dotenv with
  | none =>
      ⟨1, ["ERROR: DOTENV environment variable is not set. Did Secret Manager mount it?"],
        [], [], []⟩
  | some s =>
      ⟨0, [],
        ["Writing web/.env.local (len=" ++ toString s.length ++ ")", "Done."],
        ["web"], [("web/.env.local", s)]⟩

/-- The per-step keys the runner ever reads. -/
def stepKeys : List String :=
  ["action", "selector", "noWaitAfter", "afterMs", "text", "ms", "path", "url"]

/-- The top-level keys the runner ever reads, apart from `steps`. -/
def topKeys : List String :=
  ["url", "viewport", "fullPage", "timeoutMs", "headless", "waitUntil", "slowMoMs"]

/-- Two raw steps agree on every key the runner reads (non-objects must be
identical). -/
def stepAgree : JValue → JValue → Prop
  | .obj k1, .obj k2 => ∀ key ∈ stepKeys, jget k1 key = jget k2 key
  | s1, s2 => s1 = s2

/-- Two decoded specs agree on every top-level key the runner reads, with
their step lists pointwise step-agreeing (non-objects must be identical).
Specs related by `specAgree` differ at most in unrecognized keys. -/
def specAgree : JValue → JValue → Prop
  | .obj k1, .obj k2 =>
      (∀ key ∈ topKeys, jget k1 key = jget k2 key) ∧
      (match jget k1 "steps", jget k2 "steps" with
       | some (.arr l1), some (.arr l2) => List.Forall₂ stepAgree l1 l2
       | a, b => a = b)
  | v1, v2 => v1 = v2

/-- No explicit teardown event (`closeContext` / `closeBrowser`) occurs in
the list. -/
def noClose (evs : List Event) : Prop :=
  ∀ e ∈ evs, e ≠ Event.closeContext ∧ e ≠ Event.closeBrowser

/-- Replace the environment's spec file (used to run the same browser world
on two spec documents). -/
def setSpec (env : RunEnv) (f : Option (Except String JValue)) : RunEnv :=
  { env with specFile := f }

/-- A benign browser oracle: every operation succeeds and no `clickText`
locator category matches anything. -/
def oracleOk : World :=
  { gotoOutcome := fun _ => .ok,
    waitForOutcome := fun _ => .ok,
    clickOutcome := fun _ => .ok,
    buttonCount := fun _ => 0,
    linkCount := fun _ => 0,
    textCount := fun _ => 0,
    clickElOutcome := fun _ _ => .ok,
    screenshotOutcome := fun _ => .ok }

/-- `python web_screenshot_flow.py --spec /work/spec.json` with no options. -/
def argsDefault : Args := ⟨"/work/spec.json", none, false, none⟩

/-- A page where both a button and a link carry the accessible name
`Continue` (and some element contains that text as well). -/
def wButtonLink : World :=
  { oracleOk with
      buttonCount := fun t => if t = "Continue" then 1 else 0,
      linkCount := fun t => if t = "Continue" then 1 else 0,
      textCount := fun t => if t = "Continue" then 1 else 0 }

/-- A page where only a link carries the accessible name `Continue`. -/
def wLinkOnly : World :=
  { oracleOk with linkCount := fun t => if t = "Continue" then 1 else 0 }

/-- A page where only a plain text node contains `Continue`. -/
def wTextOnly : World :=
  { oracleOk with textCount := fun t => if t = "Continue" then 1 else 0 }

/-- The events of launch, context, page creation and the initial navigation
with all spec options at their defaults. -/
def defaultPre (u : String) : List Event :=
  [Event.launch true none, Event.newContext 1440 900, Event.newPage,
   Event.goto u "networkidle" 30000]

/-- The configuration a spec with all optional fields at their defaults
produces (base directory `/work`, the default spec file's directory). -/
def cfgDefault : Config :=
  ⟨1440, 900, 30000, false, true, "networkidle", none, "/work"⟩

/-- Python `isinstance(v, dict)`. -/
def isObj : JValue → Bool
  | .obj _ => true
  | _ => false

/-- The run environment of C10: a spec whose `timeoutMs`, `viewport.width`,
`viewport.height`, `sleep.ms` and `afterMs` are all the JSON boolean `true`,
against the benign oracle. -/
def envBoolFields : RunEnv :=
  { specFile := some (.ok (.obj
      [("url", .str "https://x"),
       ("timeoutMs", .bool true),
       ("viewport", .obj [("width", .bool true), ("height", .bool true)]),
       ("steps", .arr
         [.obj [("action", .str "sleep"), ("ms", .bool true)],
          .obj [("action", .str "waitFor"), ("selector", .str "text=Go"),
                ("afterMs", .bool true)]])])),
    world := oracleOk }

/-- A flow whose single step captures a screenshot at the relative path
`shots/out.png`. -/
def envShot : RunEnv :=
  { specFile := some (.ok (.obj [("url", .str "https://x"),
      ("steps", .arr [.obj [("action", .str "screenshot"),
        ("path", .str "shots/out.png")]])])),
    world := oracleOk }

/-- `--spec /work/spec.json --out-dir ""` (an empty but present override). -/
def argsEmptyOutDir : Args := ⟨"/work/spec.json", some "", false, none⟩

/-- A spec with a wrongly-typed `fullPage` (a string) that the runner
nevertheless accepts: truthiness coercion, not type validation. -/
def envBadFullPage : RunEnv :=
  { specFile := some (.ok (.obj
      [("url", .str "https://x"), ("steps", .arr []),
       ("fullPage", .str "definitely-not-a-bool"),
       ("headless", .num 7), ("slowMoMs", .str "fast")])),
    world := oracleOk }

/-- C1: for every `clickText` step the runner tries three locator categories
in priority order — button by accessible name, link by accessible name, any
element containing the text — clicks the first match of the first non-empty
category (a button is preferred over a link whenever both match), and raises
the "No element found matching text" error when every category is empty;
the same resolution order holds on the `noWaitAfter` code path. -/
theorem clickText_locator_priority (w : World) (t : String) (tmo : Int) :
    (0 < w.buttonCount t →
      click_by_text w t tmo =
        ([.clickLocator .button t tmo false],
          outcomeErr (w.clickElOutcome .button t)) ∧
      clickTextNoWait w t tmo =
        ([.clickLocator .button t tmo true],
          outcomeErr (w.clickElOutcome .button t))) ∧
    (w.buttonCount t = 0 → 0 < w.linkCount t →
      click_by_text w t tmo =
        ([.clickLocator .link t tmo false],
          outcomeErr (w.clickElOutcome .link t)) ∧
      clickTextNoWait w t tmo =
        ([.clickLocator .link t tmo true],
          outcomeErr (w.clickElOutcome .link t))) ∧
    (w.buttonCount t = 0 → w.linkCount t = 0 → 0 < w.textCount t →
      click_by_text w t tmo =
        ([.clickLocator .textEl t tmo false],
          outcomeErr (w.clickElOutcome .textEl t)) ∧
      clickTextNoWait w t tmo =
        ([.clickLocator .textEl t tmo true],
          outcomeErr (w.clickElOutcome .textEl t))) ∧
    (w.buttonCount t = 0 → w.linkCount t = 0 → w.textCount t = 0 →
      click_by_text w t tmo =
        ([], some (.pwTimeout ("No element found matching text: " ++ t))) ∧
      clickTextNoWait w t tmo =
        ([], some (.pwTimeout ("No element found matching text: " ++ t)))) := by
  refine ⟨fun hb => ?_, fun hb hl => ?_, fun hb hl ht => ?_, fun hb hl ht => ?_⟩
  · simp [click_by_text, clickTextNoWait, hb]
  · simp [click_by_text, clickTextNoWait, hb, hl, Nat.pos_iff_ne_zero]
  · simp [click_by_text, clickTextNoWait, hb, hl, ht, Nat.pos_iff_ne_zero]
  · simp [click_by_text, clickTextNoWait, hb, hl, ht]

/-- Witness for C1: on a page where a button and a link both carry the
accessible name `Continue` the button is clicked (on both code paths); on a
link-only page the link is clicked; on a text-only page the text element is
clicked; on an empty page the "No element found" error is raised. -/
theorem clickText_locator_priority_witness :
    (0 < wButtonLink.buttonCount "Continue" ∧
      0 < wButtonLink.linkCount "Continue" ∧
      click_by_text wButtonLink "Continue" 30000 =
        ([.clickLocator .button "Continue" 30000 false], none) ∧
      clickTextNoWait wButtonLink "Continue" 30000 =
        ([.clickLocator .button "Continue" 30000 true], none)) ∧
    (wLinkOnly.buttonCount "Continue" = 0 ∧ 0 < wLinkOnly.linkCount "Continue" ∧
      click_by_text wLinkOnly "Continue" 30000 =
        ([.clickLocator .link "Continue" 30000 false], none)) ∧
    (wTextOnly.buttonCount "Continue" = 0 ∧ wTextOnly.linkCount "Continue" = 0 ∧
      0 < wTextOnly.textCount "Continue" ∧
      click_by_text wTextOnly "Continue" 30000 =
        ([.clickLocator .textEl "Continue" 30000 false], none)) ∧
    (oracleOk.buttonCount "Continue" = 0 ∧ oracleOk.linkCount "Continue" = 0 ∧
      oracleOk.textCount "Continue" = 0 ∧
      click_by_text oracleOk "Continue" 30000 =
        ([], some (.pwTimeout "No element found matching text: Continue")) ∧
      clickTextNoWait oracleOk "Continue" 30000 =
        ([], some (.pwTimeout "No element found matching text: Continue"))) := by
  have h1 := (clickText_locator_priority wButtonLink "Continue" 30000).1 (by decide)
  have h2 := (clickText_locator_priority wLinkOnly "Continue" 30000).2.1 rfl (by decide)
  have h3 :=
    (clickText_locator_priority wTextOnly "Continue" 30000).2.2.1 rfl rfl (by decide)
  have h4 := (clickText_locator_priority oracleOk "Continue" 30000).2.2.2 rfl rfl rfl
  exact ⟨⟨by decide, by decide, h1.1, h1.2⟩, ⟨rfl, by decide, h2.1⟩,
    ⟨rfl, rfl, by decide, h3.1⟩, ⟨rfl, rfl, rfl, h4.1, h4.2⟩⟩

/-- C9: the env-writer exits nonzero with a stderr message exactly when
`DOTENV` is unset (and then writes nothing); when it is set — including to
the empty string — it writes the raw contents verbatim to `web/.env.local`,
creating the parent directory `web`, and exits 0. -/
theorem dotenv_writer_contract :
    ((write_dotenv none).exitCode = 1 ∧ (write_dotenv none).stderr ≠ [] ∧
      (write_dotenv none).writes = [] ∧ (write_dotenv none).madeDirs = []) ∧
    (∀ s : String,
      (write_dotenv (some s)).exitCode = 0 ∧
      (write_dotenv (some s)).stderr = [] ∧
      (write_dotenv (some s)).madeDirs = ["web"] ∧
      (write_dotenv (some s)).writes = [("web/.env.local", s)]) ∧
    (∀ d : Option String, (write_dotenv d).exitCode ≠ 0 ↔ d = none) := by
  refine ⟨⟨rfl, by simp [write_dotenv], rfl, rfl⟩,
    fun s => ⟨rfl, rfl, rfl, rfl⟩, fun d => ?_⟩
  cases d <;> simp [write_dotenv]

/-- C10: because Python's `isinstance(v, int)` accepts booleans, every
integer-typed field takes a JSON boolean without a `SpecError`: with
`timeoutMs`, `viewport.width`, `viewport.height`, `sleep.ms` and a step's
`afterMs` all set to `true` the run exits 0, uses `1` for the viewport and
timeout, and performs 1-millisecond waits; in particular
`{"action":"sleep","ms":true}` passes validation and sleeps 1 ms. -/
theorem bool_passes_int_validation :
    run envBoolFields argsDefault =
      ⟨0, [],
        [.launch true none, .newContext 1 1, .newPage,
         .goto "https://x" "networkidle" 1, .waitTimeout 1,
         .waitForSelector "text=Go" 1, .waitTimeout 1,
         .closeContext, .closeBrowser]⟩ ∧
    execStep oracleOk cfgDefault
        (.obj [("action", .str "sleep"), ("ms", .bool true)]) =
      ([.waitTimeout 1], none) ∧
    isInt (.bool true) = true ∧ isInt (.bool false) = true ∧
    toInt (.bool true) = 1 := ⟨rfl, rfl, rfl, rfl, rfl⟩

/-- C6: for every decoded spec object whose `url` is missing or not a string
the runner exits 2 printing `error: spec.url must be str`; when `url` is a
string but `steps` is missing or not a sequence it exits 2 printing
`error: spec.steps must be list` — each message naming the offending field —
and no browser event occurs. -/
theorem missing_required_field_rejected (env : RunEnv) (args : Args)
    (kvs : List (String × JValue)) (u e : String)
    (hw : env.specFile = some (.ok (.obj kvs))) :
    (require_str (jget kvs "url") "url" = .error e →
      run env args = ⟨2, ["error: " ++ e], []⟩ ∧ e = "spec.url must be str") ∧
    (jget kvs "url" = some (.str u) →
      require_list (jget kvs "steps") "steps" = .error e →
      run env args = ⟨2, ["error: " ++ e], []⟩ ∧ e = "spec.steps must be list") := by
  constructor
  · intro h
    have he : e = "spec.url must be str" := by
      unfold require_str at h
      split at h
      · exact absurd h (by simp)
      · exact (Except.error.injEq _ _).mp h.symm
    refine ⟨?_, he⟩
    simp only [run, hw, runSpecFields, h]
  · intro hu h
    have he : e = "spec.steps must be list" := by
      unfold require_list at h
      split at h
      · exact absurd h (by simp)
      · exact (Except.error.injEq _ _).mp h.symm
    refine ⟨?_, he⟩
    simp only [run, hw, runSpecFields, h, hu, require_str]

/-- Witness for C6: `{}` is rejected naming `url`; `{"url": "https://x",
"steps": 3}` is rejected naming `steps`. -/
theorem missing_required_field_rejected_witness :
    (Spark.RunEnv.specFile ⟨some (.ok (.obj [])), oracleOk⟩ =
        some (.ok (.obj [])) ∧
      require_str (jget [] "url") "url" = .error "spec.url must be str" ∧
      run ⟨some (.ok (.obj [])), oracleOk⟩ argsDefault =
        ⟨2, ["error: spec.url must be str"], []⟩) ∧
    (jget [("url", JValue.str "https://x"), ("steps", JValue.num 3)] "url" =
        some (.str "https://x") ∧
      require_list (jget [("url", JValue.str "https://x"),
          ("steps", JValue.num 3)] "steps") "steps" =
        .error "spec.steps must be list" ∧
      run ⟨some (.ok (.obj [("url", JValue.str "https://x"),
          ("steps", JValue.num 3)])), oracleOk⟩ argsDefault =
        ⟨2, ["error: spec.steps must be list"], []⟩) := by
  refine ⟨⟨rfl, rfl, ?_⟩, ⟨rfl, rfl, ?_⟩⟩
  · exact ((missing_required_field_rejected ⟨some (.ok (.obj [])), oracleOk⟩
      argsDefault [] "https://x" "spec.url must be str" rfl).1 rfl).1
  · exact ((missing_required_field_rejected
      ⟨some (.ok (.obj [("url", JValue.str "https://x"), ("steps", JValue.num 3)])),
        oracleOk⟩
      argsDefault [("url", JValue.str "https://x"), ("steps", JValue.num 3)]
      "https://x" "spec.steps must be list" rfl).2 rfl rfl).1

/-- C3: a steps entry whose `action` is none of waitFor, click, clickText,
sleep, screenshot, goto makes the run exit 2 with `error: unknown action:
<a>`; the trace shows only the steps before it (here one sleep), and —
for any world, configuration and remaining list — the step loop stops at the
offending entry with that `SpecError`, performing no event of any later
step. -/
theorem unknown_action_exits_2 (env : RunEnv) (args : Args) (w : World)
    (cfg : Config) (u a : String) (rest : List JValue)
    (hspec : env.specFile = some (.ok (.obj [("url", .str u),
      ("steps", .arr (.obj [("action", .str "sleep"), ("ms", .num 5)] ::
        .obj [("action", .str a)] :: rest))])))
    (hgoto : env.world.gotoOutcome u = .ok)
    (hheaded : args.headed = false) (hslow : args.slowmo = none)
    (ha : a ∉ ["waitFor", "click", "clickText", "sleep", "screenshot", "goto"]) :
    run env args =
      ⟨2, ["error: unknown action: " ++ a], defaultPre u ++ [.waitTimeout 5]⟩ ∧
    execSteps w cfg (.obj [("action", .str a)] :: rest) =
      ([], some (.specError ("unknown action: " ++ a))) := by
  simp only [List.mem_cons, List.not_mem_nil, or_false, not_or] at ha
  obtain ⟨h1, h2, h3, h4, h5, h6⟩ := ha
  constructor
  · simp [run, hspec, runSpecFields, jget, require_str, require_list,
      waitUntilCheck, isInt, truthy, toInt, runBrowser, hgoto, execSteps,
      execStep, execStepObj, maybe_wait, opThen, defaultPre, hheaded, hslow,
      h1, h2, h3, h4, h5, h6, outputBaseDir]
    rw [← String.append_assoc]
    rfl
  · simp [execSteps, execStep, execStepObj, jget, h1, h2, h3, h4, h5, h6]

/-- Witness for C3: the action `frobnicate` after a sleep step exits 2 with
the unknown-action error and a trace stopping after the sleep, and the step
loop on `[frobnicate, sleep 7]` performs nothing of the trailing sleep. -/
theorem unknown_action_exits_2_witness :
    (Spark.RunEnv.specFile
        ⟨some (.ok (.obj [("url", JValue.str "https://x"),
          ("steps", .arr [.obj [("action", .str "sleep"), ("ms", .num 5)],
            .obj [("action", .str "frobnicate")],
            .obj [("action", .str "sleep"), ("ms", .num 7)]])])), oracleOk⟩ =
      some (.ok (.obj [("url", JValue.str "https://x"),
        ("steps", .arr [.obj [("action", .str "sleep"), ("ms", .num 5)],
          .obj [("action", .str "frobnicate")],
          .obj [("action", .str "sleep"), ("ms", .num 7)]])]))) ∧
    oracleOk.gotoOutcome "https://x" = .ok ∧
    argsDefault.headed = false ∧ argsDefault.slowmo = none ∧
    "frobnicate" ∉ ["waitFor", "click", "clickText", "sleep", "screenshot", "goto"] ∧
    run ⟨some (.ok (.obj [("url", JValue.str "https://x"),
        ("steps", .arr [.obj [("action", .str "sleep"), ("ms", .num 5)],
          .obj [("action", .str "frobnicate")],
          .obj [("action", .str "sleep"), ("ms", .num 7)]])])), oracleOk⟩
        argsDefault =
      ⟨2, ["error: unknown action: frobnicate"],
        defaultPre "https://x" ++ [.waitTimeout 5]⟩ ∧
    execSteps oracleOk cfgDefault
        [.obj [("action", .str "frobnicate")],
         .obj [("action", .str "sleep"), ("ms", .num 7)]] =
      ([], some (.specError "unknown action: frobnicate")) := by
  have h := unknown_action_exits_2
    ⟨some (.ok (.obj [("url", JValue.str "https://x"),
      ("steps", .arr [.obj [("action", .str "sleep"), ("ms", .num 5)],
        .obj [("action", .str "frobnicate")],
        .obj [("action", .str "sleep"), ("ms", .num 7)]])])), oracleOk⟩
    argsDefault oracleOk cfgDefault "https://x" "frobnicate"
    [.obj [("action", .str "sleep"), ("ms", .num 7)]]
    rfl rfl rfl rfl (by decide)
  exact ⟨rfl, rfl, rfl, rfl, by decide, h.1, h.2⟩

/-- Counterexample to C2 as stated: a missing spec file does exit 2, but its
message `spec not found: <path>` is printed WITHOUT the `error:` prefix
(it is an early return before the top-level handlers, not a caught
exception). -/
theorem missing_spec_file_lacks_error_prefix :
    run ⟨none, oracleOk⟩ argsDefault =
      ⟨2, ["spec not found: /work/spec.json"], []⟩ ∧
    ∀ r : String, "spec not found: /work/spec.json" ≠ "error: " ++ r := by
  refine ⟨rfl, fun r h => ?_⟩
  have h2 := congrArg String.data h
  simp [String.data_append] at h2

/-- C2 (amended): `SpecError` (e.g. malformed JSON) and engine errors
(navigation timeout, element-not-found) are caught at top level, printed to
stderr with an `error:` prefix and mapped to exit 2; a missing spec file
also exits 2 but prints `spec not found: <path>` without that prefix; any
other uncaught failure is printed with the prefix and mapped to exit 1;
success exits 0. -/
theorem run_error_exit_codes (env : RunEnv) (args : Args) (u m t : String) :
    (env.specFile = none →
      run env args = ⟨2, ["spec not found: " ++ args.spec], []⟩) ∧
    (env.specFile = some (.error m) →
      run env args = ⟨2, ["error: invalid JSON spec: " ++ m], []⟩) ∧
    (env.specFile = some (.ok (.obj [("url", .str u), ("steps", .arr [])])) →
      args.headed = false → args.slowmo = none →
      ((env.world.gotoOutcome u = .timeout m →
          run env args = ⟨2, ["error: " ++ m], defaultPre u⟩) ∧
       (env.world.gotoOutcome u = .fail m →
          run env args = ⟨1, ["error: " ++ m], defaultPre u⟩) ∧
       (env.world.gotoOutcome u = .ok →
          run env args =
            ⟨0, [], defaultPre u ++ [.closeContext, .closeBrowser]⟩))) ∧
    (env.specFile = some (.ok (.obj [("url", .str u),
        ("steps", .arr [.obj [("action", .str "clickText"),
          ("text", .str t)]])])) →
      args.headed = false → args.slowmo = none →
      env.world.gotoOutcome u = .ok →
      env.world.buttonCount t = 0 → env.world.linkCount t = 0 →
      env.world.textCount t = 0 →
      run env args =
        ⟨2, ["error: No element found matching text: " ++ t], defaultPre u⟩) := by
  refine ⟨fun h => by simp [run, h], fun h => by simp [run, h],
    fun h hh hs => ⟨fun hg => ?_, fun hg => ?_, fun hg => ?_⟩,
    fun h hh hs hg hb hl ht => ?_⟩
  · simp [run, h, runSpecFields, jget, require_str, require_list,
      waitUntilCheck, isInt, truthy, toInt, runBrowser, hg, execSteps,
      defaultPre, hh, hs, outputBaseDir]
  · simp [run, h, runSpecFields, jget, require_str, require_list,
      waitUntilCheck, isInt, truthy, toInt, runBrowser, hg, execSteps,
      defaultPre, hh, hs, outputBaseDir]
  · simp [run, h, runSpecFields, jget, require_str, require_list,
      waitUntilCheck, isInt, truthy, toInt, runBrowser, hg, execSteps,
      defaultPre, hh, hs, outputBaseDir]
  · simp [run, h, runSpecFields, jget, require_str, require_list,
      waitUntilCheck, isInt, truthy, toInt, runBrowser, hg, execSteps,
      execStep, execStepObj, click_by_text, clickTextNoWait, maybe_wait,
      defaultPre, hh, hs, hb, hl, ht, outputBaseDir]
    rw [← String.append_assoc]
    rfl

/-- Witness for C2 (amended): concrete runs — missing file exits 2 without
the prefix; malformed JSON exits 2 with it; a navigation timeout exits 2; a
generic navigation failure exits 1; a clean run exits 0; a clickText with no
match exits 2 with the element-not-found message. -/
theorem run_error_exit_codes_witness :
    (run ⟨none, oracleOk⟩ argsDefault =
      ⟨2, ["spec not found: /work/spec.json"], []⟩) ∧
    (run ⟨some (.error "Expecting value: line 1 column 1 (char 0)"), oracleOk⟩
        argsDefault =
      ⟨2, ["error: invalid JSON spec: Expecting value: line 1 column 1 (char 0)"],
        []⟩) ∧
    (run ⟨some (.ok (.obj [("url", JValue.str "https://x"), ("steps", .arr [])])),
        { oracleOk with gotoOutcome := fun _ => .timeout "Timeout 30000ms exceeded." }⟩
        argsDefault =
      ⟨2, ["error: Timeout 30000ms exceeded."], defaultPre "https://x"⟩) ∧
    (run ⟨some (.ok (.obj [("url", JValue.str "https://x"), ("steps", .arr [])])),
        { oracleOk with gotoOutcome := fun _ => .fail "net::ERR_NAME_NOT_RESOLVED" }⟩
        argsDefault =
      ⟨1, ["error: net::ERR_NAME_NOT_RESOLVED"], defaultPre "https://x"⟩) ∧
    (run ⟨some (.ok (.obj [("url", JValue.str "https://x"), ("steps", .arr [])])),
        oracleOk⟩ argsDefault =
      ⟨0, [], defaultPre "https://x" ++ [.closeContext, .closeBrowser]⟩) ∧
    (run ⟨some (.ok (.obj [("url", JValue.str "https://x"),
        ("steps", .arr [.obj [("action", .str "clickText"),
          ("text", .str "Continue with Google")]])])), oracleOk⟩ argsDefault =
      ⟨2, ["error: No element found matching text: Continue with Google"],
        defaultPre "https://x"⟩) := by
  refine ⟨?_, ?_, ?_, ?_, ?_, ?_⟩
  · exact (run_error_exit_codes ⟨none, oracleOk⟩ argsDefault "u" "m" "t").1 rfl
  · exact (run_error_exit_codes
      ⟨some (.error "Expecting value: line 1 column 1 (char 0)"), oracleOk⟩
      argsDefault "u" "Expecting value: line 1 column 1 (char 0)" "t").2.1 rfl
  · exact ((run_error_exit_codes _ argsDefault "https://x"
      "Timeout 30000ms exceeded." "t").2.2.1 rfl rfl rfl).1 rfl
  · exact ((run_error_exit_codes _ argsDefault "https://x"
      "net::ERR_NAME_NOT_RESOLVED" "t").2.2.1 rfl rfl rfl).2.1 rfl
  · exact ((run_error_exit_codes _ argsDefault "https://x" "m" "t").2.2.1
      rfl rfl rfl).2.2 rfl
  · exact (run_error_exit_codes _ argsDefault "https://x" "m"
      "Continue with Google").2.2.2 rfl rfl rfl rfl rfl rfl rfl

/-- Counterexample to C4 as stated: a spec whose `fullPage` is a string,
`headless` a number and `slowMoMs` a string is NOT rejected — the run
accepts it, coerces `fullPage`/`headless` by truthiness, passes the bogus
`slowMoMs` straight to the browser launch, and exits 0 with nothing on
stderr. -/
theorem optional_fields_not_all_validated :
    run envBadFullPage argsDefault =
      ⟨0, [],
        [.launch true (some (.str "fast")), .newContext 1440 900, .newPage,
         .goto "https://x" "networkidle" 30000,
         .closeContext, .closeBrowser]⟩ := rfl

/-- C4 (amended): of the optional FlowSpec fields only `viewport` (object
shape and integer width/height), `timeoutMs` (integer) and `waitUntil`
(enum) are type-validated, each rejection exiting 2 with a message naming
the offending field and an empty browser trace (so before any browser side
effect); `fullPage` and `headless` accept any type via truthiness coercion
and `slowMoMs` is passed through unvalidated, so wrong types there are never
rejected. -/
theorem optional_field_validation (env : RunEnv) (args : Args) (u : String)
    (vv wv tv wu fv hv sv : JValue) :
    (isObj vv = false →
      env.specFile = some (.ok (.obj [("url", .str u), ("steps", .arr []),
        ("viewport", vv)])) →
      run env args = ⟨2, ["error: spec.viewport must be an object"], []⟩) ∧
    (isInt wv = false →
      env.specFile = some (.ok (.obj [("url", .str u), ("steps", .arr []),
        ("viewport", .obj [("width", wv)])])) →
      run env args =
        ⟨2, ["error: spec.viewport width/height must be integers"], []⟩) ∧
    (isInt tv = false →
      env.specFile = some (.ok (.obj [("url", .str u), ("steps", .arr []),
        ("timeoutMs", tv)])) →
      run env args = ⟨2, ["error: spec.timeoutMs must be an integer"], []⟩) ∧
    (waitUntilCheck wu = none →
      env.specFile = some (.ok (.obj [("url", .str u), ("steps", .arr []),
        ("waitUntil", wu)])) →
      run env args =
        ⟨2, ["error: spec.waitUntil must be load|domcontentloaded|networkidle|commit"],
          []⟩) ∧
    (env.specFile = some (.ok (.obj [("url", .str u), ("steps", .arr []),
        ("fullPage", fv), ("headless", hv), ("slowMoMs", sv)])) →
      env.world.gotoOutcome u = .ok →
      (run env args).exitCode = 0 ∧ (run env args).stderr = []) := by
  refine ⟨fun hv2 h => ?_, fun hw h => ?_, fun ht h => ?_, fun hwu h => ?_,
    fun h hg => ?_⟩
  · cases vv <;>
      simp_all [run, runSpecFields, jget, require_str, require_list, isObj]
  · simp [run, h, runSpecFields, jget, require_str, require_list, hw]
  · simp [run, h, runSpecFields, jget, require_str, require_list, ht]
    exact ⟨rfl, rfl⟩
  · simp [run, h, runSpecFields, jget, require_str, require_list, isInt, hwu]
  · constructor <;>
      simp [run, h, runSpecFields, jget, require_str, require_list, isInt,
        waitUntilCheck, runBrowser, hg, execSteps]

/-- Witness for C4 (amended): concrete rejections for `viewport` (a number),
`viewport.width` (a string), `timeoutMs` (a string), `waitUntil` (a bad
string), and concrete acceptance of wrongly-typed `fullPage`, `headless`,
`slowMoMs`. -/
theorem optional_field_validation_witness :
    (isObj (JValue.num 3) = false ∧
      run ⟨some (.ok (.obj [("url", JValue.str "https://x"),
        ("steps", .arr []), ("viewport", .num 3)])), oracleOk⟩ argsDefault =
        ⟨2, ["error: spec.viewport must be an object"], []⟩) ∧
    (isInt (JValue.str "wide") = false ∧
      run ⟨some (.ok (.obj [("url", JValue.str "https://x"),
        ("steps", .arr []),
        ("viewport", .obj [("width", JValue.str "wide")])])), oracleOk⟩
        argsDefault =
        ⟨2, ["error: spec.viewport width/height must be integers"], []⟩) ∧
    (isInt (JValue.str "30s") = false ∧
      run ⟨some (.ok (.obj [("url", JValue.str "https://x"),
        ("steps", .arr []), ("timeoutMs", JValue.str "30s")])), oracleOk⟩
        argsDefault =
        ⟨2, ["error: spec.timeoutMs must be an integer"], []⟩) ∧
    (waitUntilCheck (JValue.str "eventually") = none ∧
      run ⟨some (.ok (.obj [("url", JValue.str "https://x"),
        ("steps", .arr []), ("waitUntil", JValue.str "eventually")])), oracleOk⟩
        argsDefault =
        ⟨2, ["error: spec.waitUntil must be load|domcontentloaded|networkidle|commit"],
          []⟩) ∧
    (Spark.RunEnv.specFile envBadFullPage =
        some (.ok (.obj [("url", JValue.str "https://x"), ("steps", .arr []),
          ("fullPage", .str "definitely-not-a-bool"), ("headless", .num 7),
          ("slowMoMs", .str "fast")])) ∧
      oracleOk.gotoOutcome "https://x" = .ok ∧
      (run envBadFullPage argsDefault).exitCode = 0 ∧
      (run envBadFullPage argsDefault).stderr = []) := by
  refine ⟨⟨rfl, ?_⟩, ⟨rfl, ?_⟩, ⟨rfl, ?_⟩, ⟨rfl, ?_⟩, rfl, rfl, ?_⟩
  · exact (optional_field_validation _ argsDefault "https://x" (.num 3)
      (.num 0) (.num 0) (.null) (.null) (.null) (.null)).1 rfl rfl
  · exact (optional_field_validation _ argsDefault "https://x" (.null)
      (.str "wide") (.num 0) (.null) (.null) (.null) (.null)).2.1 rfl rfl
  · exact (optional_field_validation _ argsDefault "https://x" (.null)
      (.num 0) (.str "30s") (.null) (.null) (.null) (.null)).2.2.1 rfl rfl
  · exact (optional_field_validation _ argsDefault "https://x" (.null)
      (.num 0) (.num 0) (.str "eventually") (.null) (.null) (.null)).2.2.2.1
      rfl rfl
  · exact (optional_field_validation envBadFullPage argsDefault "https://x"
      (.null) (.num 0) (.num 0) (.null) (.str "definitely-not-a-bool")
      (.num 7) (.str "fast")).2.2.2.2 rfl rfl

/-- Counterexample to C5 as stated: with `--out-dir ""` the override is
present, yet the code tests the string's truthiness (`if args.out_dir`), so
the relative screenshot path is resolved against the spec file's directory
`/work`, not against the given (empty) out-dir. -/
theorem outdir_empty_string_ignored :
    argsEmptyOutDir.outDir = some "" ∧
    outputBaseDir argsEmptyOutDir = "/work" ∧
    ¬ outputBaseDir argsEmptyOutDir = "" ∧
    run envShot argsEmptyOutDir =
      ⟨0, [], defaultPre "https://x" ++
        [.mkdirs "/work/shots", .screenshot "/work/shots/out.png" false,
         .printSaved "/work/shots/out.png", .closeContext, .closeBrowser]⟩ := by
  exact ⟨rfl, rfl, by decide, rfl⟩

/-- C5 (amended): a relative screenshot path is resolved against the output
base directory — the directory given by `--out-dir` when present and
non-empty, otherwise the spec file's containing directory — an absolute path
is used unchanged, and the resolved path's parent directories are created
(`mkdirs`) before the image is captured. -/
theorem screenshot_path_resolution (w : World) (cfg : Config) (args : Args)
    (p d : String) :
    (isAbsolute p = true → resolve_path p cfg.baseDir = p) ∧
    (isAbsolute p = false →
      resolve_path p cfg.baseDir = cfg.baseDir ++ "/" ++ p) ∧
    (args.outDir = some d → ¬d = "" → outputBaseDir args = d) ∧
    (args.outDir = none → outputBaseDir args = dirname args.spec) ∧
    (w.screenshotOutcome (resolve_path p cfg.baseDir) = .ok →
      execStep w cfg (.obj [("action", .str "screenshot"), ("path", .str p)]) =
        ([.mkdirs (dirname (resolve_path p cfg.baseDir)),
          .screenshot (resolve_path p cfg.baseDir) cfg.fullPage,
          .printSaved (resolve_path p cfg.baseDir)], none)) := by
  refine ⟨fun h => ?_, fun h => ?_, fun h h2 => ?_, fun h => ?_, fun hs => ?_⟩
  · simp [resolve_path, h]
  · simp [resolve_path, h]
  · simp [outputBaseDir, h, h2]
  · simp [outputBaseDir, h]
  · simp [execStep, execStepObj, jget, maybe_wait, hs]

/-- Witness for C5 (amended): `/tmp/a.png` stays absolute;
`shots/out.png` resolves to `/work/shots/out.png` under base `/work`;
`--out-dir /custom` overrides the base; no `--out-dir` gives the spec
directory `/work`; and a concrete screenshot step makes `mkdirs` of the
resolved parent precede the capture. -/
theorem screenshot_path_resolution_witness :
    (isAbsolute "/tmp/a.png" = true ∧
      resolve_path "/tmp/a.png" cfgDefault.baseDir = "/tmp/a.png") ∧
    (isAbsolute "shots/out.png" = false ∧
      resolve_path "shots/out.png" cfgDefault.baseDir = "/work/shots/out.png") ∧
    ((⟨"/work/spec.json", some "/custom", false, none⟩ : Args).outDir =
        some "/custom" ∧
      ¬"/custom" = "" ∧
      outputBaseDir ⟨"/work/spec.json", some "/custom", false, none⟩ =
        "/custom") ∧
    (argsDefault.outDir = none ∧
      outputBaseDir argsDefault = dirname argsDefault.spec) ∧
    (oracleOk.screenshotOutcome
        (resolve_path "shots/out.png" cfgDefault.baseDir) = .ok ∧
      execStep oracleOk cfgDefault
          (.obj [("action", .str "screenshot"), ("path", .str "shots/out.png")]) =
        ([.mkdirs "/work/shots", .screenshot "/work/shots/out.png" false,
          .printSaved "/work/shots/out.png"], none)) := by
  refine ⟨⟨rfl, ?_⟩, ⟨rfl, ?_⟩, ⟨rfl, by decide, ?_⟩, ⟨rfl, ?_⟩, rfl, ?_⟩
  · exact (screenshot_path_resolution oracleOk cfgDefault argsDefault
      "/tmp/a.png" "d").1 rfl
  · exact (screenshot_path_resolution oracleOk cfgDefault argsDefault
      "shots/out.png" "d").2.1 rfl
  · exact (screenshot_path_resolution oracleOk cfgDefault
      ⟨"/work/spec.json", some "/custom", false, none⟩ "p" "/custom").2.2.1
      rfl (by decide)
  · exact (screenshot_path_resolution oracleOk cfgDefault argsDefault
      "p" "d").2.2.2.1 rfl
  · exact (screenshot_path_resolution oracleOk cfgDefault argsDefault
      "shots/out.png" "d").2.2.2.2 rfl

theorem noClose_nil : noClose [] := by
  intro e he
  simp at he

theorem noClose_cons {x : Event} {l : List Event} (h1 : x ≠ Event.closeContext)
    (h2 : x ≠ Event.closeBrowser) (hl : noClose l) : noClose (x :: l) := by
  intro e he
  rcases List.mem_cons.mp he with h | h
  · exact h ▸ ⟨h1, h2⟩
  · exact hl e h

theorem noClose_append {a b : List Event} (ha : noClose a) (hb : noClose b) :
    noClose (a ++ b) := by
  intro e he
  rcases List.mem_append.mp he with h | h
  · exact ha e h
  · exact hb e h

theorem noClose_maybe_wait (mv : Option JValue) : noClose (maybe_wait mv).1 := by
  rcases mv with _ | v
  · exact noClose_nil
  cases v
  case null => exact noClose_nil
  case num m =>
    dsimp only [maybe_wait]
    split
    · exact noClose_nil
    · simp [noClose]
  case bool b =>
    dsimp only [maybe_wait]
    split
    · simp [noClose]
    · exact noClose_nil
  case str s => exact noClose_nil
  case arr l => exact noClose_nil
  case obj l => exact noClose_nil

theorem noClose_opThen (ev : Event) (oc : PwOutcome) (af : Option JValue)
    (h1 : ev ≠ Event.closeContext) (h2 : ev ≠ Event.closeBrowser) :
    noClose (opThen ev oc af).1 := by
  cases oc
  case ok => exact noClose_cons h1 h2 (noClose_maybe_wait af)
  case timeout m => exact noClose_cons h1 h2 noClose_nil
  case fail m => exact noClose_cons h1 h2 noClose_nil

theorem noClose_click_by_text (w : World) (t : String) (tmo : Int) :
    noClose (click_by_text w t tmo).1 := by
  unfold click_by_text
  repeat' split
  all_goals simp [noClose]

theorem noClose_clickTextNoWait (w : World) (t : String) (tmo : Int) :
    noClose (clickTextNoWait w t tmo).1 := by
  unfold clickTextNoWait
  repeat' split
  all_goals simp [noClose]

theorem noClose_clickText_dispatch (w : World) (t : String) (tmo : Int)
    (b : Bool) :
    noClose (if b then clickTextNoWait w t tmo else click_by_text w t tmo).1 := by
  split
  · exact noClose_clickTextNoWait w t tmo
  · exact noClose_click_by_text w t tmo

theorem noClose_execStepObj (w : World) (cfg : Config)
    (a s n af t m p u : Option JValue) :
    noClose (execStepObj w cfg a s n af t m p u).1 := by
  rcases a with _ | v
  · exact noClose_nil
  cases v
  case null => exact noClose_nil
  case bool b => exact noClose_nil
  case num x => exact noClose_nil
  case arr l => exact noClose_nil
  case obj l => exact noClose_nil
  case str action =>
  dsimp only [execStepObj]
  split
  · -- waitFor
    split
    · exact noClose_opThen _ _ _ (by simp) (by simp)
    · exact noClose_nil
  split
  · -- click
    split
    · exact noClose_opThen _ _ _ (by simp) (by simp)
    · exact noClose_nil
  split
  · -- clickText
    split
    · rename_i text
      split
      · rename_i evs e heq
        have hd := noClose_clickText_dispatch w text cfg.timeoutMs
          (truthy (n.getD (.bool false)))
        rw [heq] at hd
        exact hd
      · rename_i evs heq
        have hd := noClose_clickText_dispatch w text cfg.timeoutMs
          (truthy (n.getD (.bool false)))
        rw [heq] at hd
        exact noClose_append hd (noClose_maybe_wait af)
    · exact noClose_nil
  split
  · -- sleep
    split
    · simp [noClose]
    · simp [noClose]
    · exact noClose_nil
  split
  · -- screenshot
    split
    · rename_i path
      split
      · rename_i e1 r heq
        have hmw := noClose_maybe_wait af
        rw [heq] at hmw
        exact hmw
      · rename_i e1 heq
        have hmw := noClose_maybe_wait af
        rw [heq] at hmw
        split
        · exact noClose_append hmw (by simp [noClose])
        · exact noClose_append hmw (by simp [noClose])
        · exact noClose_append hmw (by simp [noClose])
    · exact noClose_nil
  split
  · -- goto
    split
    · exact noClose_opThen _ _ _ (by simp) (by simp)
    · exact noClose_nil
  · -- unknown action
    exact noClose_nil

theorem noClose_execStep (w : World) (cfg : Config) (s : JValue) :
    noClose (execStep w cfg s).1 := by
  cases s
  case obj kvs => exact noClose_execStepObj w cfg _ _ _ _ _ _ _ _
  all_goals exact noClose_nil

theorem noClose_execSteps (w : World) (cfg : Config) :
    ∀ l : List JValue, noClose (execSteps w cfg l).1
  | [] => noClose_nil
  | s :: rest => by
      unfold execSteps
      split
      · rename_i evs e heq
        have h := noClose_execStep w cfg s
        rw [heq] at h
        exact h
      · rename_i evs heq
        have h := noClose_execStep w cfg s
        rw [heq] at h
        split
        · rename_i evs2 r heq2
          have h2 := noClose_execSteps w cfg rest
          rw [heq2] at h2
          exact noClose_append h h2

theorem runBrowser_shape (w : World) (cfg : Config) (url : String)
    (steps : List JValue) :
    ((runBrowser w cfg url steps).exitCode = 0 ∧
      ∃ t2, (runBrowser w cfg url steps).trace =
        t2 ++ [Event.closeContext, Event.closeBrowser]) ∨
    ((runBrowser w cfg url steps).exitCode ≠ 0 ∧
      noClose (runBrowser w cfg url steps).trace) := by
  dsimp only [runBrowser]
  split
  · right
    exact ⟨by simp, by simp [noClose]⟩
  · right
    exact ⟨by simp, by simp [noClose]⟩
  · split
    · rename_i evs m heq
      right
      refine ⟨by simp, ?_⟩
      have h := noClose_execSteps w cfg steps
      rw [heq] at h
      exact noClose_append (by simp [noClose]) h
    · rename_i evs m heq
      right
      refine ⟨by simp, ?_⟩
      have h := noClose_execSteps w cfg steps
      rw [heq] at h
      exact noClose_append (by simp [noClose]) h
    · rename_i evs m heq
      right
      refine ⟨by simp, ?_⟩
      have h := noClose_execSteps w cfg steps
      rw [heq] at h
      exact noClose_append (by simp [noClose]) h
    · left
      exact ⟨rfl, ⟨_, rfl⟩⟩

theorem runSpecFields_shape (w : World) (args : Args)
    (urlV stepsV viewportV fullPageV timeoutV headlessV waitUntilV slowMoV :
      Option JValue) :
    ((runSpecFields w args urlV stepsV viewportV fullPageV timeoutV headlessV
        waitUntilV slowMoV).exitCode = 0 ∧
      ∃ t2, (runSpecFields w args urlV stepsV viewportV fullPageV timeoutV
        headlessV waitUntilV slowMoV).trace =
          t2 ++ [Event.closeContext, Event.closeBrowser]) ∨
    ((runSpecFields w args urlV stepsV viewportV fullPageV timeoutV headlessV
        waitUntilV slowMoV).exitCode ≠ 0 ∧
      noClose (runSpecFields w args urlV stepsV viewportV fullPageV timeoutV
        headlessV waitUntilV slowMoV).trace) := by
  dsimp only [runSpecFields]
  split
  · right
    exact ⟨by simp, noClose_nil⟩
  split
  · right
    exact ⟨by simp, noClose_nil⟩
  split
  · split
    · split
      · split
        · exact runBrowser_shape _ _ _ _
        · right
          exact ⟨by simp, noClose_nil⟩
      · right
        exact ⟨by simp, noClose_nil⟩
    · right
      exact ⟨by simp, noClose_nil⟩
  · right
    exact ⟨by simp, noClose_nil⟩

theorem run_shape (env : RunEnv) (args : Args) :
    ((run env args).exitCode = 0 ∧
      ∃ t2, (run env args).trace =
        t2 ++ [Event.closeContext, Event.closeBrowser]) ∨
    ((run env args).exitCode ≠ 0 ∧ noClose (run env args).trace) := by
  dsimp only [run]
  split
  · right
    exact ⟨by simp, noClose_nil⟩
  · right
    exact ⟨by simp, noClose_nil⟩
  · split
    · exact runSpecFields_shape _ _ _ _ _ _ _ _ _ _
    · right
      exact ⟨by simp, noClose_nil⟩

/-- C8: whenever the run exits 0 (normal completion) the trace ends by
closing the page context and then the browser, in that order, and on every
path that exits nonzero no explicit `closeContext`/`closeBrowser` teardown
event occurs at all. -/
theorem teardown_contract (env : RunEnv) (args : Args) :
    ((run env args).exitCode = 0 →
      ∃ t2, (run env args).trace =
        t2 ++ [Event.closeContext, Event.closeBrowser]) ∧
    ((run env args).exitCode ≠ 0 →
      Event.closeContext ∉ (run env args).trace ∧
      Event.closeBrowser ∉ (run env args).trace) := by
  rcases run_shape env args with ⟨h0, ht⟩ | ⟨h0, hn⟩
  · exact ⟨fun _ => ht, fun h => absurd h0 h⟩
  · exact ⟨fun h => absurd h h0,
      fun _ => ⟨fun hm => (hn _ hm).1 rfl, fun hm => (hn _ hm).2 rfl⟩⟩

/-- Witness for C8: the clean empty-steps run exits 0 with trace ending in
`closeContext, closeBrowser`; the missing-spec-file run exits nonzero with
neither teardown event in its (empty) trace. -/
theorem teardown_contract_witness :
    ((run ⟨some (.ok (.obj [("url", JValue.str "https://x"),
        ("steps", .arr [])])), oracleOk⟩ argsDefault).exitCode = 0 ∧
      ∃ t2, (run ⟨some (.ok (.obj [("url", JValue.str "https://x"),
        ("steps", .arr [])])), oracleOk⟩ argsDefault).trace =
          t2 ++ [Event.closeContext, Event.closeBrowser]) ∧
    ((run ⟨none, oracleOk⟩ argsDefault).exitCode ≠ 0 ∧
      (Event.closeContext ∉ (run ⟨none, oracleOk⟩ argsDefault).trace ∧
       Event.closeBrowser ∉ (run ⟨none, oracleOk⟩ argsDefault).trace)) := by
  refine ⟨⟨rfl, (teardown_contract ⟨some (.ok (.obj [("url", JValue.str "https://x"),
    ("steps", .arr [])])), oracleOk⟩ argsDefault).1 rfl⟩,
    ⟨by decide, (teardown_contract ⟨none, oracleOk⟩ argsDefault).2 (by decide)⟩⟩

theorem execStep_agree (w : World) (cfg : Config) (s1 s2 : JValue)
    (h : stepAgree s1 s2) : execStep w cfg s1 = execStep w cfg s2 := by
  unfold stepAgree at h
  split at h
  · rename_i k1 k2
    dsimp only [execStep]
    rw [h "action" (by simp [stepKeys]), h "selector" (by simp [stepKeys]),
      h "noWaitAfter" (by simp [stepKeys]), h "afterMs" (by simp [stepKeys]),
      h "text" (by simp [stepKeys]), h "ms" (by simp [stepKeys]),
      h "path" (by simp [stepKeys]), h "url" (by simp [stepKeys])]
  · rw [h]

theorem execSteps_agree (w : World) (cfg : Config) {l1 l2 : List JValue}
    (h : List.Forall₂ stepAgree l1 l2) :
    execSteps w cfg l1 = execSteps w cfg l2 := by
  induction h with
  | nil => rfl
  | cons h1 _ ih =>
      dsimp only [execSteps]
      rw [execStep_agree w cfg _ _ h1, ih]

theorem runBrowser_steps_agree (w : World) (cfg : Config) (url : String)
    {l1 l2 : List JValue} (h : List.Forall₂ stepAgree l1 l2) :
    runBrowser w cfg url l1 = runBrowser w cfg url l2 := by
  dsimp only [runBrowser]
  rw [execSteps_agree w cfg h]

theorem runSpecFields_steps_agree (w : World) (args : Args)
    (urlV viewportV fullPageV timeoutV headlessV waitUntilV slowMoV :
      Option JValue) {l1 l2 : List JValue}
    (h : List.Forall₂ stepAgree l1 l2) :
    runSpecFields w args urlV (some (.arr l1)) viewportV fullPageV timeoutV
      headlessV waitUntilV slowMoV =
    runSpecFields w args urlV (some (.arr l2)) viewportV fullPageV timeoutV
      headlessV waitUntilV slowMoV := by
  dsimp only [runSpecFields, require_list]
  split
  · rfl
  · split
    · split
      · split
        · split
          · exact runBrowser_steps_agree _ _ _ h
          · rfl
        · rfl
      · rfl
    · rfl

/-- C7: two specs that agree on every key the runner reads (`url`, the
optional top-level fields, and each step's recognized keys) — i.e. differ
only in unrecognized top-level or per-step keys — produce identical runs:
same exit code, same stderr, same event trace. Unrecognized keys are
silently ignored and never cause rejection. -/
theorem unrecognized_keys_ignored (env : RunEnv) (args : Args)
    (v1 v2 : JValue) (h : specAgree v1 v2) :
    run (setSpec env (some (.ok v1))) args =
      run (setSpec env (some (.ok v2))) args := by
  unfold specAgree at h
  split at h
  · rename_i k1 k2
    obtain ⟨htop, hsteps⟩ := h
    dsimp only [run, setSpec]
    rw [htop "url" (by simp [topKeys]), htop "viewport" (by simp [topKeys]),
      htop "fullPage" (by simp [topKeys]), htop "timeoutMs" (by simp [topKeys]),
      htop "headless" (by simp [topKeys]), htop "waitUntil" (by simp [topKeys]),
      htop "slowMoMs" (by simp [topKeys])]
    split at hsteps
    · rename_i l1 l2 heq1 heq2
      rw [heq1, heq2]
      exact runSpecFields_steps_agree _ _ _ _ _ _ _ _ _ hsteps
    · rw [hsteps]
  · rw [h]

/-- Witness for C7: the same flow with an extra unrecognized top-level key
(`theme`) and an extra unrecognized per-step key (`note`) runs identically
to the flow without them. -/
theorem unrecognized_keys_ignored_witness :
    specAgree
      (.obj [("url", .str "https://x"),
        ("steps", .arr [.obj [("action", .str "sleep"), ("ms", .num 5)]])])
      (.obj [("url", .str "https://x"), ("theme", .str "dark"),
        ("steps", .arr [.obj [("action", .str "sleep"), ("ms", .num 5),
          ("note", .str "extra")]])]) ∧
    run (setSpec ⟨none, oracleOk⟩ (some (.ok (.obj [("url", .str "https://x"),
        ("steps", .arr [.obj [("action", .str "sleep"), ("ms", .num 5)]])]))))
      argsDefault =
    run (setSpec ⟨none, oracleOk⟩ (some (.ok (.obj [("url", .str "https://x"),
        ("theme", .str "dark"),
        ("steps", .arr [.obj [("action", .str "sleep"), ("ms", .num 5),
          ("note", .str "extra")]])]))))
      argsDefault := by
  have hagree : specAgree
      (JValue.obj [("url", .str "https://x"),
        ("steps", .arr [.obj [("action", .str "sleep"), ("ms", .num 5)]])])
      (JValue.obj [("url", .str "https://x"), ("theme", .str "dark"),
        ("steps", .arr [.obj [("action", .str "sleep"), ("ms", .num 5),
          ("note", .str "extra")]])]) := by
    refine ⟨?_, ?_⟩
    · intro key hk
      fin_cases hk <;> rfl
    · show List.Forall₂ stepAgree _ _
      refine List.Forall₂.cons ?_ List.Forall₂.nil
      intro key hk
      fin_cases hk <;> rfl
  exact ⟨hagree, unrecognized_keys_ignored ⟨none, oracleOk⟩ argsDefault _ _ hagree⟩

end Spark
